import Mathlib

/-!
Verification development for the ARCADE repository's health-classification
engine (src/scripts/health-scan.ts) and embedded telemetry bridge agent
(src/src/lib/bridgeScript.ts).

The definitions below are a shallow embedding of the TypeScript source:
JavaScript numbers are modelled as rationals (ℚ), counts as naturals,
nullable values as `Option`, and the impure environment readings of a probe
(readiness promise outcome, fallback DOM probe, captured snapshots,
dispatch outcome, measured animation activity) as explicit inputs.
-/

namespace Arcade

/-- Game status values (health-scan.ts line 17). -/
inductive GameStatus
  | working
  | broken
  | missingAssets
  | unknown
  | flaky
deriving DecidableEq

/-- A single control declaration (health-scan.ts lines 48-52). -/
structure ManifestControl where
  device : String
  input : String
  action : String
deriving DecidableEq

/-- Optional controls record of a manifest entry (health-scan.ts lines 58-60). -/
structure ManifestControls where
  movement : Option (List ManifestControl)
deriving DecidableEq

/-- A manifest entry (health-scan.ts lines 54-61). -/
structure ManifestGame where
  id : String
  title : String
  status : GameStatus
  controls : Option ManifestControls
deriving DecidableEq

/-- A downsampled luminance snapshot (health-scan.ts lines 153-157). -/
structure FrameSignature where
  width : ℕ
  height : ℕ
  luminances : List ℚ
deriving DecidableEq

/-- Per-entry scan verdict record (health-scan.ts lines 19-32). -/
structure HealthResult where
  id : String
  title : String
  ready : Bool
  avgFps : Option ℚ
  firstPaint : Option ℚ
  errors : ℕ
  stalled : Bool
  noMotion : Bool
  noResponse : Bool
  status : GameStatus
  previousStatus : GameStatus
  note : String
deriving DecidableEq

/-- Result of the 2-second requestAnimationFrame counting loop
(health-scan.ts lines 159-162). -/
structure AnimationActivity where
  tickCount : ℕ
  elapsedMs : ℚ
deriving DecidableEq

/-- Running total of per-pixel absolute luminance differences, the loop of
health-scan.ts lines 289-292. -/
def sumAbsDiff : List ℚ → List ℚ → ℚ
  | a :: as, b :: bs => |a - b| + sumAbsDiff as bs
  | _, _ => 0

/-- Mirror of computeSignatureDelta (health-scan.ts lines 284-294): null for a
missing signature, mismatched dimensions, or an empty / length-mismatched
buffer; otherwise the mean per-pixel absolute luminance difference
normalised by 255. -/
def computeSignatureDelta : Option FrameSignature → Option FrameSignature → Option ℚ
  | some a, some b =>
    if a.width ≠ b.width ∨ a.height ≠ b.height then none
    else if a.luminances.length = 0 ∨ a.luminances.length ≠ b.luminances.length then none
    else some (sumAbsDiff a.luminances b.luminances / (a.luminances.length * 255))
  | _, _ => none

/-- JavaScript Math.round for the (non-negative) quantities used here:
floor of the argument plus one half. -/
def jsRound (q : ℚ) : ℤ := ⌊q + 1/2⌋

/-- JavaScript Number(x.toFixed(2)): rounding to two decimal places. -/
def jsToFixed2 (q : ℚ) : ℚ := (jsRound (q * 100) : ℚ) / 100

/-- Perceptual luminance of one RGB pixel (health-scan.ts line 274). -/
def luminance (p : ℚ × ℚ × ℚ) : ℚ :=
  2126/10000 * p.1 + 7152/10000 * p.2.1 + 722/10000 * p.2.2

/-- Downscale factor of captureCanvasSignature (health-scan.ts line 257). -/
def captureScale (targetWidth intrinsicWidth : ℕ) : ℚ :=
  min 1 ((targetWidth : ℚ) / (intrinsicWidth : ℚ))

/-- One downscaled buffer dimension (health-scan.ts lines 258-259):
Math.max(1, Math.round(intrinsic * scale)). -/
def captureDim (intrinsic : ℕ) (scale : ℚ) : ℕ :=
  (max 1 (jsRound ((intrinsic : ℚ) * scale))).toNat

/-- Mirror of captureCanvasSignature (health-scan.ts lines 242-282) on its
successful path. The browser-side pixel reads of the downscaled buffer are
abstracted as the `pixel` input; the environment failure branches (missing
iframe, canvas, or 2d context) return no signature at all and are outside
the returned-signature claims. A zero intrinsic dimension returns null
(line 255). -/
def captureCanvasSignature (pixel : ℕ → ℚ × ℚ × ℚ)
    (intrinsicWidth intrinsicHeight targetWidth : ℕ) : Option FrameSignature :=
  if intrinsicWidth = 0 ∨ intrinsicHeight = 0 then none
  else
    some ⟨captureDim intrinsicWidth (captureScale targetWidth intrinsicWidth),
          captureDim intrinsicHeight (captureScale targetWidth intrinsicWidth),
          (List.range (captureDim intrinsicWidth (captureScale targetWidth intrinsicWidth) *
              captureDim intrinsicHeight (captureScale targetWidth intrinsicWidth))).map
            (fun i => luminance (pixel i))⟩

/-- The longer of a signature's two dimensions. -/
def longerDimension (s : FrameSignature) : ℕ := max s.width s.height

/-- An all-black downscaled pixel buffer, used as a concrete capture input. -/
def blackPixels : ℕ → ℚ × ℚ × ℚ := fun _ => (0, 0, 0)

/-- Word characters for the \bor\b boundary test of health-scan.ts line 212. -/
def wordChar (c : Char) : Bool := c.isAlpha || c.isDigit || c = '_'

/-- Whether the character preceding a candidate match (none at string start)
is a valid word boundary. -/
def boundaryOk : Option Char → Bool
  | none => true
  | some c => !wordChar c

/-- Whether the position following a candidate match is a word boundary. -/
def headNotWord : List Char → Bool
  | [] => true
  | c :: _ => !wordChar c

/-- Prefix of the input before the first case-insensitive word-bounded "or",
i.e. rawInput.split(/\bor\b/i)[0] (health-scan.ts line 212). -/
def takeBeforeOrWord : Option Char → List Char → List Char
  | _, [] => []
  | prev, c :: rest =>
    if ((c = 'o' || c = 'O') && boundaryOk prev &&
        (match rest with
         | c2 :: rest2 => (c2 = 'r' || c2 = 'R') && headNotWord rest2
         | [] => false)) = true
    then []
    else c :: takeBeforeOrWord (some c) rest

/-- JavaScript String.prototype.trim on the ASCII inputs used here. -/
def trimChars (cs : List Char) : List Char :=
  ((cs.dropWhile Char.isWhitespace).reverse.dropWhile Char.isWhitespace).reverse

/-- Collapse of whitespace runs to a single space,
token.replace(/\s+/g, ' ') (health-scan.ts line 218). The Boolean argument
records whether the previous character was whitespace. -/
def collapseWS : Bool → List Char → List Char
  | _, [] => []
  | prevSpace, c :: rest =>
    if c.isWhitespace then
      if prevSpace then collapseWS true rest
      else ' ' :: collapseWS true rest
    else c :: collapseWS false rest

/-- Contiguous-sublist test, matching String.prototype.includes. -/
def containsSub (needle : List Char) : List Char → Bool
  | [] => needle.isEmpty
  | c :: rest => needle.isPrefixOf (c :: rest) || containsSub needle rest

/-- The ARROW-prefixed branch of the token match (health-scan.ts
lines 221-226). -/
def arrowFromDirection (upper : List Char) : Option String :=
  if containsSub ("LEFT".toList) upper then some "ArrowLeft"
  else if containsSub ("RIGHT".toList) upper then some "ArrowRight"
  else if containsSub ("UP".toList) upper then some "ArrowUp"
  else if containsSub ("DOWN".toList) upper then some "ArrowDown"
  else none

/-- The arrowMap lookup (health-scan.ts lines 228-234). -/
def directArrowName (upper : List Char) : Option String :=
  if upper = "LEFT".toList then some "ArrowLeft"
  else if upper = "RIGHT".toList then some "ArrowRight"
  else if upper = "UP".toList then some "ArrowUp"
  else if upper = "DOWN".toList then some "ArrowDown"
  else none

/-- The SPACE / SPACEBAR branch (health-scan.ts line 237). -/
def spaceKey (upper : List Char) : Option String :=
  if upper = "SPACE".toList ∨ upper = "SPACEBAR".toList then some "Space" else none

/-- Canonical key derivation from the upper-cased normalised token
(health-scan.ts lines 221-239). -/
def keyFromUpper (upper : List Char) : Option String :=
  match (if ("ARROW".toList).isPrefixOf upper then arrowFromDirection upper else none) with
  | some k => some k
  | none =>
    match directArrowName upper with
    | some k => some k
    | none =>
      match upper with
      | [c] => if 'A' ≤ c ∧ c ≤ 'Z' then some (String.mk [c.toLower]) else spaceKey upper
      | _ => spaceKey upper

/-- Mirror of selectFirstMovementKey (health-scan.ts lines 204-240). -/
def selectFirstMovementKey (game : ManifestGame) : Option String :=
  match game.controls with
  | none => none
  | some cs =>
    match cs.movement with
    | none => none
    | some [] => none
    | some (first :: _) =>
      if first.input = "" then none
      else
        let seg1 := (first.input.toList).takeWhile (fun c => c ≠ '|')
        let seg2 := takeBeforeOrWord none seg1
        let seg3 := seg2.takeWhile (fun c => c ≠ '/')
        let seg4 := seg3.takeWhile (fun c => c ≠ ',')
        let seg := trimChars seg4
        if seg.isEmpty then none
        else keyFromUpper ((collapseWS false seg).map Char.toUpper)

/-- Whether a manifest entry declares at least one movement control. -/
def hasMovementControl (game : ManifestGame) : Bool :=
  match game.controls with
  | some cs =>
    match cs.movement with
    | some (_ :: _) => true
    | _ => false
  | none => false

/-- Outcome of the simulated key dispatch attempt (health-scan.ts
lines 466-476): either the press or follow-up capture rejected (the catch
branch), or it completed yielding a possibly-null third signature. -/
inductive ResponseOutcome
  | dispatchFailed
  | captured (sigC : Option FrameSignature)
deriving DecidableEq

/-- The noMotion flag computation (health-scan.ts lines 449-462), evaluated
only for ready entries: motion delta below 0.01 or at most 30 verified
animation ticks. -/
def computeNoMotion (ready : Bool) (sigA sigB : Option FrameSignature)
    (activity : Option AnimationActivity) : Bool :=
  if ready then
    let tickCount := (activity.map AnimationActivity.tickCount).getD 0
    (match computeSignatureDelta sigA sigB with
     | some d => decide (d < 1/100) || decide (tickCount ≤ 30)
     | none => decide (tickCount ≤ 30))
  else false

/-- The noResponse flag computation (health-scan.ts lines 464-477), evaluated
only for ready entries: a test runs only when a movement key was derived and
the second snapshot exists; the catch branch sets the flag, and otherwise it
is set exactly when the B-to-C delta is numeric and below 0.01. -/
def computeNoResponse (ready : Bool) (movementKey : Option String)
    (sigB : Option FrameSignature) (outcome : ResponseOutcome) : Bool :=
  if ready then
    match movementKey, sigB with
    | some _, some b =>
      (match outcome with
       | ResponseOutcome.dispatchFailed => true
       | ResponseOutcome.captured sigC =>
         match computeSignatureDelta (some b) sigC with
         | some d => decide (d < 1/100)
         | none => false)
    | _, _ => false
  else false

/-- Mirror of shouldMarkBroken (health-scan.ts line 496). -/
def shouldMarkBroken (stalled noMotion noResponse : Bool) (totalErrors : ℕ) : Bool :=
  stalled || noMotion || noResponse || decide (totalErrors > 3)

/-- Mirror of derivedStatus (health-scan.ts line 497). -/
def derivedStatus (stalled noMotion noResponse : Bool) (totalErrors : ℕ)
    (previousStatus : GameStatus) : GameStatus :=
  if shouldMarkBroken stalled noMotion noResponse totalErrors then GameStatus.broken
  else previousStatus

/-- Average of the Agent-reported fps samples (health-scan.ts lines 424-432). -/
def averageFps (fpsSamples : List ℚ) : Option ℚ :=
  if fpsSamples.length = 0 then none
  else some (jsToFixed2 (fpsSamples.sum / fpsSamples.length))

/-- Driver-verified average fps override (health-scan.ts lines 439-447). -/
def finalAvgFps (fpsSamples : List ℚ) (ready : Bool)
    (activity : Option AnimationActivity) : Option ℚ :=
  if ready then
    match activity with
    | some a =>
      if 0 < a.elapsedMs then some (jsToFixed2 ((a.tickCount : ℚ) / (a.elapsedMs / 1000)))
      else averageFps fpsSamples
    | none => averageFps fpsSamples
  else averageFps fpsSamples

/-- The issue strings gathered for the note column (health-scan.ts
lines 482-494). -/
def buildIssues (readinessTimeout : ℕ) (stalled : Bool) (totalErrors : ℕ)
    (noMotion noResponse : Bool) : List String :=
  (if stalled then
     ["arcade:ready not observed within " ++ toString (readinessTimeout / 1000) ++ "s"]
   else []) ++
  (if totalErrors > 3 then ["High error count (" ++ toString totalErrors ++ ")"] else []) ++
  (if noMotion then ["No motion detected (frame delta < 1% or rAF ticks <= 30)"] else []) ++
  (if noResponse then ["No basic input response (<1% delta after simulated movement key)"] else [])

/-- Environment readings gathered while probing one entry: the readiness
promise outcome within the timeout, the fallback DOM canvas probe, the
Agent-reported fps samples and first paint, total error count, the measured
animation activity, the two time-separated snapshots, and the outcome of the
simulated key dispatch. -/
structure ProbeSignals where
  agentReady : Bool
  fallbackCanvas : Option (ℕ × ℕ)
  fpsSamples : List ℚ
  firstPaint : Option ℚ
  totalErrors : ℕ
  animationActivity : Option AnimationActivity
  signatureA : Option FrameSignature
  signatureB : Option FrameSignature
  responseOutcome : ResponseOutcome

/-- The HealthResult built for one probed (non-excluded) entry, the loop body
of health-scan.ts lines 394-513: readiness with DOM fallback (lines 404-413),
flag computation, status derivation and note assembly. -/
def probedResult (readinessTimeout : ℕ) (game : ManifestGame) (s : ProbeSignals) : HealthResult :=
  let ready := s.agentReady || s.fallbackCanvas.isSome
  let noMotion := computeNoMotion ready s.signatureA s.signatureB s.animationActivity
  let noResponse := computeNoResponse ready (selectFirstMovementKey game) s.signatureB
    s.responseOutcome
  let stalled := !ready
  let issues := buildIssues readinessTimeout stalled s.totalErrors noMotion noResponse
  ⟨game.id, game.title, ready, finalAvgFps s.fpsSamples ready s.animationActivity,
   s.firstPaint, s.totalErrors, stalled, noMotion, noResponse,
   derivedStatus stalled noMotion noResponse s.totalErrors game.status, game.status,
   if issues.length > 0 then String.intercalate "; " issues else "Pass"⟩

/-- The pass-through record for an entry excluded as missing-assets
(health-scan.ts lines 361-377). -/
def missingAssetsResult (game : ManifestGame) : HealthResult :=
  ⟨game.id, game.title, false, none, none, 0, true, true, true, game.status, game.status,
   "Excluded (missing assets)"⟩

/-- The per-entry branch of the main loop (health-scan.ts lines 360-377 and
394-513): missing-assets entries pass through, all others are probed. -/
def scanResult (readinessTimeout : ℕ) (game : ManifestGame) (s : ProbeSignals) : HealthResult :=
  if game.status = GameStatus.missingAssets then missingAssetsResult game
  else probedResult readinessTimeout game s

/-- Mutation of the first manifest entry matching an id to broken, i.e.
manifest.games.find(...) followed by target.status = 'broken'
(health-scan.ts lines 563-567). The Boolean reports whether a target was
found (which is when manifestChanged is set). -/
def applyOne : List ManifestGame → String → List ManifestGame × Bool
  | [], _ => ([], false)
  | g :: rest, id =>
    if g.id = id then (⟨g.id, g.title, GameStatus.broken, g.controls⟩ :: rest, true)
    else ((g :: (applyOne rest id).1), (applyOne rest id).2)

/-- One step of the reconciliation forEach (health-scan.ts lines 561-569). -/
def reconcileStep (acc : List ManifestGame × Bool) (r : HealthResult) :
    List ManifestGame × Bool :=
  if r.status = GameStatus.broken ∧ r.previousStatus ≠ GameStatus.broken then
    ((applyOne acc.1 r.id).1, acc.2 || (applyOne acc.1 r.id).2)
  else acc

/-- The full reconciliation pass over all results (health-scan.ts
lines 560-569), returning the updated manifest list and manifestChanged. -/
def applyReconciliation (results : List HealthResult) (games : List ManifestGame) :
    List ManifestGame × Bool :=
  results.foldl reconcileStep (games, false)

/-- The manifest write decision (health-scan.ts lines 559-577): no write at
all without --write, and no write when nothing changed. -/
def manifestWrite (writeChanges : Bool) (results : List HealthResult)
    (games : List ManifestGame) : Option (List ManifestGame) :=
  if writeChanges then
    if (applyReconciliation results games).2 then some (applyReconciliation results games).1
    else none
  else none

/-- The Agent source tag (bridgeScript.ts line 2). -/
def BRIDGE_SOURCE : String := "arcade-bridge"

/-- The host source tag (bridgeScript.ts line 1). -/
def BRIDGE_PARENT_SOURCE : String := "arcade-parent"

/-- The Agent's metricsState record (bridgeScript.ts lines 11-18). The clock
readings performance.now() are supplied explicitly. -/
structure MetricsState where
  lastTimestamp : Option ℚ
  frameCount : ℕ
  frameTimes : List ℚ
  lastPost : ℚ
  firstPaint : Option ℚ
  start : ℚ
deriving DecidableEq

/-- The arcade:metrics payload fields computed inside recordFrame
(bridgeScript.ts lines 85-92); the DOM reads canvasSize and devicePixelRatio
are environment lookups outside the metrics state. -/
structure MetricsPayload where
  fps : ℚ
  frameTimeMs : ℚ
  frameSamples : ℕ
  firstPaintMs : Option ℚ
deriving DecidableEq

/-- Mirror of recordFrame (bridgeScript.ts lines 64-97): `now` is the
performance.now() reading used for first paint, `timestamp` the
requestAnimationFrame timestamp. Returns the updated state and the metrics
message posted, if any. -/
def recordFrame (now timestamp : ℚ) (st : MetricsState) : MetricsState × Option MetricsPayload :=
  let st1 : MetricsState :=
    match st.lastTimestamp with
    | some last =>
      let pushed := st.frameTimes ++ [timestamp - last]
      ⟨st.lastTimestamp, st.frameCount + 1,
       if pushed.length > 60 then pushed.drop 1 else pushed,
       st.lastPost,
       some (st.firstPaint.getD (now - st.start)), st.start⟩
    | none => st
  let st2 : MetricsState :=
    ⟨some timestamp, st1.frameCount, st1.frameTimes, st1.lastPost, st1.firstPaint, st1.start⟩
  if 100 ≤ timestamp - st2.lastPost then
    let frameCount := st2.frameTimes.length
    let average := if frameCount > 0 then st2.frameTimes.sum / (frameCount : ℚ) else 0
    (⟨st2.lastTimestamp, 0, st2.frameTimes, timestamp, st2.firstPaint, st2.start⟩,
     some ⟨jsToFixed2 (if 0 < average then 1000 / average else 0), jsToFixed2 average,
           frameCount, st2.firstPaint⟩)
  else (st2, none)

/-- Timestamps at which metrics messages are emitted when a sequence of
animation-frame callbacks, each a (performance.now, rAF timestamp) pair, is
fed through recordFrame. -/
def runFrames : MetricsState → List (ℚ × ℚ) → List ℚ
  | _, [] => []
  | st, (now, ts) :: rest =>
    match recordFrame now ts st with
    | (st2, some _) => ts :: runFrames st2 rest
    | (st2, none) => runFrames st2 rest

/-- One observed step of enumerating window.localStorage inside the
request-highscores handler (bridgeScript.ts lines 156-168): iteration i
yields key(i) and getItem(key), or the access throws. -/
inductive StorageStep
  | item (key : Option String) (value : Option String)
  | failure
deriving DecidableEq

/-- Entries accumulated by the enumeration loop before a throw, and whether a
throw occurred (bridgeScript.ts lines 156-168): null keys are skipped and a
failure ends the loop keeping the entries pushed so far. -/
def collectEntries : List StorageStep → List (String × Option String) × Bool
  | [] => ([], false)
  | StorageStep.failure :: _ => ([], true)
  | StorageStep.item none _ :: rest => collectEntries rest
  | StorageStep.item (some k) v :: rest =>
    ((k, v) :: (collectEntries rest).1, (collectEntries rest).2)

/-- Payloads carried by the Agent's outbound posts relevant to control
handling (bridgeScript.ts lines 146, 164-167, 169). -/
inductive BridgePayload
  | pauseState (state : String)
  | highscoreList (entries : List (String × Option String))
  | enumError
deriving DecidableEq

/-- Observable actions the Agent's message handler performs, in order: custom
event dispatches on window and document, and postMessage calls to the
parent. -/
inductive BridgeAction
  | dispatchWindowEvent (name : String)
  | dispatchDocumentEvent (name : String)
  | postTelemetry (msgType : String) (payload : BridgePayload)
deriving DecidableEq

/-- Recogniser for an arcade:highscores post. -/
def isHighscoresPost : BridgeAction → Bool
  | BridgeAction.postTelemetry "arcade:highscores" _ => true
  | _ => false

/-- Mirror of the Agent's message listener (bridgeScript.ts lines 131-175):
messages with a missing or wrong source tag are dropped, as are cross-origin
messages and messages without a type; the recognised control types produce
the listed action sequences, everything else falls through to no action. -/
def handleBridgeMessage (dataSource : Option String) (eventOrigin windowOrigin : String)
    (msgType : Option String) (storage : List StorageStep) : List BridgeAction :=
  match dataSource with
  | none => []
  | some tag =>
    if tag = BRIDGE_PARENT_SOURCE then
      if eventOrigin = windowOrigin then
        match msgType with
        | none => []
        | some t =>
          if t = "" then []
          else if t = "arcade:focus" ∨ t = "arcade:blur" ∨ t = "arcade:pause" ∨
              t = "arcade:resume" then
            [BridgeAction.dispatchWindowEvent t, BridgeAction.dispatchDocumentEvent t,
             BridgeAction.postTelemetry "arcade:pause-state" (BridgePayload.pauseState t)]
          else if t = "arcade:toggle-help" then
            [BridgeAction.dispatchWindowEvent "arcade:toggle-help",
             BridgeAction.dispatchDocumentEvent "arcade:toggle-help"]
          else if t = "arcade:request-highscores" then
            (if (collectEntries storage).2 then
               [BridgeAction.postTelemetry "arcade:error" BridgePayload.enumError]
             else []) ++
            [BridgeAction.postTelemetry "arcade:highscores"
               (BridgePayload.highscoreList (collectEntries storage).1)]
          else []
      else []
    else []

/-- A 1x1 signature whose single pixel is black. -/
def sigDark : FrameSignature := ⟨1, 1, [0]⟩

/-- A 1x1 signature whose single pixel is white. -/
def sigBright : FrameSignature := ⟨1, 1, [255]⟩

/-- A 1x1 signature with one mid-grey pixel. -/
def sigOne : FrameSignature := ⟨1, 1, [7]⟩

/-- A 2x1 signature, dimensionally incompatible with sigOne. -/
def sigTwo : FrameSignature := ⟨2, 1, [3, 4]⟩

/-- The degenerate signature with zero dimensions and an empty buffer. -/
def emptySig : FrameSignature := ⟨0, 0, []⟩

/-- The signature captured from a 10x5 surface of black pixels. -/
def sigTenFive : FrameSignature := ⟨10, 5, List.replicate 50 0⟩

/-- A manifest entry whose persisted status is already broken and which
declares no controls. -/
def gPrevBroken : ManifestGame := ⟨"prev-broken", "Previously Broken", GameStatus.broken, none⟩

/-- A manifest entry with persisted status working and no controls. -/
def gWorking : ManifestGame := ⟨"working-game", "Working Game", GameStatus.working, none⟩

/-- A manifest entry declaring a movement control whose free-text input
("Mouse") yields no canonical key. -/
def gMouse : ManifestGame :=
  ⟨"mouse-game", "Mouse Game", GameStatus.working,
   some ⟨some [⟨"mouse", "Mouse", "aim"⟩]⟩⟩

/-- A manifest entry declaring a movement control with input "Left/Right",
which derives the canonical key ArrowLeft. -/
def gArrow : ManifestGame :=
  ⟨"arrow-game", "Arrow Game", GameStatus.working,
   some ⟨some [⟨"keyboard", "Left/Right", "move"⟩]⟩⟩

/-- Probe signals for a passing run: readiness arrived, 100 verified ticks in
the 2-second window (so the tick floor does not fire), no captured snapshots
(so the motion delta is incomparable), and no errors. -/
def sPassSignals : ProbeSignals :=
  ⟨true, none, [], none, 0, some ⟨100, 2000⟩, none, none,
   ResponseOutcome.captured none⟩

/-- Probe signals for a ready entry whose second snapshot exists, used to show
that the response test is skipped purely for lack of a derivable key. -/
def sMouseSignals : ProbeSignals :=
  ⟨true, none, [], none, 0, some ⟨100, 2000⟩, none, some sigBright,
   ResponseOutcome.captured none⟩

/-- Probe signals where neither readiness nor the fallback DOM probe
succeeded. -/
def sStallSignals : ProbeSignals :=
  ⟨false, none, [], none, 0, none, none, none, ResponseOutcome.captured none⟩

/-- Probe signals where readiness never arrived but the fallback DOM probe
found a 320x240 canvas. -/
def sFallbackSignals : ProbeSignals :=
  ⟨false, some (320, 240), [], none, 0, some ⟨100, 2000⟩, some sigDark, some sigBright,
   ResponseOutcome.captured none⟩

/-- A scan result that transitioned from working to broken, with id "a". -/
def resBrokenA : HealthResult :=
  ⟨"a", "A", false, none, none, 0, true, false, false, GameStatus.broken, GameStatus.working,
   "arcade:ready not observed within 10s"⟩

/-- A manifest entry with id "b", untouched by resBrokenA. -/
def gameB : ManifestGame := ⟨"b", "B", GameStatus.working, none⟩

/-- A storage trace that yields one entry and then throws. -/
def storageFail : List StorageStep :=
  [StorageStep.item (some "hs:a") (some "10"), StorageStep.failure]

/-- The freshly initialised metrics state with all clocks at zero. -/
def st0 : MetricsState := ⟨none, 0, [], 0, none, 0⟩

/-- Summing pointwise absolute differences of a buffer with itself gives
zero. -/
theorem sumAbsDiff_self : ∀ l : List ℚ, sumAbsDiff l l = 0
  | [] => rfl
  | x :: rest => by simp [sumAbsDiff, sumAbsDiff_self rest]

/-- A broken derived status is explained by a flag, a high error count, or a
previously broken persisted status. -/
theorem derived_status_explained (st nm nr : Bool) (e : ℕ) (prev : GameStatus)
    (h : derivedStatus st nm nr e prev = GameStatus.broken) :
    st = true ∨ nm = true ∨ nr = true ∨ 3 < e ∨ prev = GameStatus.broken := by
  by_cases hb : shouldMarkBroken st nm nr e = true
  · have hb2 := hb
    unfold shouldMarkBroken at hb2
    simp only [Bool.or_eq_true, decide_eq_true_eq] at hb2
    tauto
  · unfold derivedStatus at h
    rw [if_neg hb] at h
    exact Or.inr (Or.inr (Or.inr (Or.inr h)))

/-- C1: for every probed entry and all combinations of the stalled, noMotion
and noResponse flags and any error count, shouldMarkBroken is true iff at
least one of stalled, noMotion, noResponse, errorCount > 3 holds, and the
derived status is broken when shouldMarkBroken holds and the previous
persisted status otherwise. -/
theorem c1_should_mark_broken_iff (stalled noMotion noResponse : Bool) (errorCount : ℕ)
    (prev : GameStatus) :
    (shouldMarkBroken stalled noMotion noResponse errorCount = true ↔
      stalled = true ∨ noMotion = true ∨ noResponse = true ∨ 3 < errorCount) ∧
    (shouldMarkBroken stalled noMotion noResponse errorCount = true →
      derivedStatus stalled noMotion noResponse errorCount prev = GameStatus.broken) ∧
    (shouldMarkBroken stalled noMotion noResponse errorCount = false →
      derivedStatus stalled noMotion noResponse errorCount prev = prev) := by
  refine ⟨?_, ?_, ?_⟩
  · unfold shouldMarkBroken
    simp [Bool.or_eq_true, decide_eq_true_eq, or_assoc]
  · intro h
    unfold derivedStatus
    rw [if_pos h]
  · intro h
    unfold derivedStatus
    rw [if_neg]
    simp [h]

/-- C1 witness: a stalled entry with no other cause is marked broken. -/
theorem c1_witness :
    shouldMarkBroken true false false 0 = true ∧
    derivedStatus true false false 0 GameStatus.working = GameStatus.broken := by
  have h := c1_should_mark_broken_iff true false false 0 GameStatus.working
  exact ⟨h.1.mpr (Or.inl rfl), h.2.1 (h.1.mpr (Or.inl rfl))⟩

/-- C2 counterexample: the probed entry gPrevBroken passes every check under
sPassSignals, yet its result status is broken with none of the four causes
flagged, because the previously persisted broken status passes through
derivedStatus unchanged. -/
theorem c2_broken_without_cause :
    (scanResult 10000 gPrevBroken sPassSignals).status = GameStatus.broken ∧
    (scanResult 10000 gPrevBroken sPassSignals).stalled = false ∧
    (scanResult 10000 gPrevBroken sPassSignals).noMotion = false ∧
    (scanResult 10000 gPrevBroken sPassSignals).noResponse = false ∧
    (scanResult 10000 gPrevBroken sPassSignals).errors ≤ 3 := by decide

/-- C2 (amended): every scan result whose status is broken is explained by
stalled, noMotion, noResponse, an error count above 3, or a previously
persisted broken status passing through. -/
theorem c2_broken_explained (timeout : ℕ) (game : ManifestGame) (s : ProbeSignals)
    (h : (scanResult timeout game s).status = GameStatus.broken) :
    (scanResult timeout game s).stalled = true ∨
    (scanResult timeout game s).noMotion = true ∨
    (scanResult timeout game s).noResponse = true ∨
    3 < (scanResult timeout game s).errors ∨
    (scanResult timeout game s).previousStatus = GameStatus.broken := by
  unfold scanResult at h ⊢
  by_cases hm : game.status = GameStatus.missingAssets
  · rw [if_pos hm]
    exact Or.inl rfl
  · rw [if_neg hm] at h ⊢
    exact derived_status_explained _ _ _ _ _ h

/-- C2 witness: a stalled probe of a previously working entry is broken and
the disjunction of causes holds (via the stalled flag). -/
theorem c2_broken_explained_witness :
    (scanResult 10000 gWorking sStallSignals).status = GameStatus.broken ∧
    ((scanResult 10000 gWorking sStallSignals).stalled = true ∨
     (scanResult 10000 gWorking sStallSignals).noMotion = true ∨
     (scanResult 10000 gWorking sStallSignals).noResponse = true ∨
     3 < (scanResult 10000 gWorking sStallSignals).errors ∨
     (scanResult 10000 gWorking sStallSignals).previousStatus = GameStatus.broken) := by
  have hs : (scanResult 10000 gWorking sStallSignals).status = GameStatus.broken := by decide
  exact ⟨hs, c2_broken_explained 10000 gWorking sStallSignals hs⟩

/-- C3 counterexample: under sFallbackSignals readiness never arrived within
the timeout, yet stalled is false because the fallback DOM probe found a
canvas; this refutes that stalled is true whenever the readiness signal did
not arrive. -/
theorem c3_stalled_fallback :
    sFallbackSignals.agentReady = false ∧
    (probedResult 10000 gWorking sFallbackSignals).stalled = false := by decide

/-- C3 (amended): stalled is true iff readiness did not arrive within the
timeout and the fallback DOM probe found no drawable surface; in particular
stalled is false whenever readiness arrived. -/
theorem c3_stalled_characterisation (timeout : ℕ) (game : ManifestGame) (s : ProbeSignals) :
    ((probedResult timeout game s).stalled = true ↔
      s.agentReady = false ∧ s.fallbackCanvas = none) ∧
    (s.agentReady = true → (probedResult timeout game s).stalled = false) := by
  have hst : (probedResult timeout game s).stalled
      = !(s.agentReady || s.fallbackCanvas.isSome) := rfl
  constructor
  · rw [hst]
    cases hA : s.agentReady <;> cases hF : s.fallbackCanvas <;> simp
  · intro hA
    rw [hst, hA]
    rfl

/-- C3 witness: with neither readiness nor a fallback canvas the entry is
stalled. -/
theorem c3_stalled_witness :
    (probedResult 10000 gWorking sStallSignals).stalled = true :=
  (c3_stalled_characterisation 10000 gWorking sStallSignals).1.mpr ⟨rfl, rfl⟩

/-- C4 counterexample: the degenerate empty signature has equal dimensions
and an identical luminance buffer compared with itself, yet
computeSignatureDelta returns null rather than exactly 0 (the empty-buffer
guard fires). -/
theorem c4_empty_delta :
    computeSignatureDelta (some emptySig) (some emptySig) = none := by decide

/-- C4 (amended): for two signatures with the same dimensions and identical
nonempty luminance buffers the delta is exactly 0; an identical empty buffer
is incomparable (null); and whenever width or height differ the result is
null, never a number. -/
theorem c4_delta_zero_or_incomparable (a b : FrameSignature) :
    (a.width = b.width → a.height = b.height → a.luminances = b.luminances →
      a.luminances ≠ [] → computeSignatureDelta (some a) (some b) = some 0) ∧
    (a.width ≠ b.width ∨ a.height ≠ b.height →
      computeSignatureDelta (some a) (some b) = none) := by
  constructor
  · intro hw hh hl hne
    have h1 : ¬(a.width ≠ b.width ∨ a.height ≠ b.height) := by
      push_neg
      exact ⟨hw, hh⟩
    have h2 : ¬(a.luminances.length = 0 ∨ a.luminances.length ≠ b.luminances.length) := by
      push_neg
      exact ⟨fun h0 => hne (List.length_eq_zero.mp h0), by rw [hl]⟩
    show (if a.width ≠ b.width ∨ a.height ≠ b.height then none
      else if a.luminances.length = 0 ∨ a.luminances.length ≠ b.luminances.length then none
      else some (sumAbsDiff a.luminances b.luminances / (a.luminances.length * 255))) = some 0
    rw [if_neg h1, if_neg h2, ← hl, sumAbsDiff_self, zero_div]
  · intro hor
    show (if a.width ≠ b.width ∨ a.height ≠ b.height then none
      else if a.luminances.length = 0 ∨ a.luminances.length ≠ b.luminances.length then none
      else some (sumAbsDiff a.luminances b.luminances / (a.luminances.length * 255))) = none
    rw [if_pos hor]

/-- C4 witness: a 1x1 signature compared with itself gives delta 0, and
signatures of different widths are incomparable. -/
theorem c4_delta_witness :
    computeSignatureDelta (some sigOne) (some sigOne) = some 0 ∧
    computeSignatureDelta (some sigOne) (some sigTwo) = none :=
  ⟨(c4_delta_zero_or_incomparable sigOne sigOne).1 rfl rfl rfl (by decide),
   (c4_delta_zero_or_incomparable sigOne sigTwo).2 (by decide)⟩

/-- Math.round is monotone up to a natural bound. -/
theorem jsRound_le_of_le (q : ℚ) (n : ℕ) (h : q ≤ n) : jsRound q ≤ (n : ℤ) := by
  unfold jsRound
  have h2 : (⌊(n : ℚ) + 1/2⌋ : ℤ) = (n : ℤ) := by
    rw [Int.floor_eq_iff]
    constructor
    · push_cast
      linarith
    · push_cast
      linarith
  calc ⌊q + 1/2⌋ ≤ ⌊(n : ℚ) + 1/2⌋ := Int.floor_le_floor (by linarith)
    _ = n := h2

/-- A downscaled dimension stays within any cap bounding intrinsic times
scale. -/
theorem captureDim_le (intrinsic : ℕ) (scale : ℚ) (cap : ℕ) (hcap : 1 ≤ cap)
    (h : (intrinsic : ℚ) * scale ≤ cap) : captureDim intrinsic scale ≤ cap := by
  unfold captureDim
  rw [Int.toNat_le]
  apply max_le
  · exact_mod_cast hcap
  · exact jsRound_le_of_le _ _ h

/-- An intrinsic width multiplied by its own downscale factor never exceeds
the target width. -/
theorem width_scale_le (w cap : ℕ) (hw : w ≠ 0) :
    (w : ℚ) * captureScale cap w ≤ cap := by
  unfold captureScale
  have hwpos : (0 : ℚ) < w := by exact_mod_cast Nat.pos_of_ne_zero hw
  have hmul : (w : ℚ) * min 1 ((cap : ℚ) / w) ≤ (w : ℚ) * ((cap : ℚ) / w) :=
    mul_le_mul_of_nonneg_left (min_le_right _ _) hwpos.le
  have heq : (w : ℚ) * ((cap : ℚ) / w) = cap := by
    field_simp
  linarith

/-- The downscale factor is never negative. -/
theorem captureScale_nonneg (cap w : ℕ) : 0 ≤ captureScale cap w := by
  unfold captureScale
  exact le_min zero_le_one (div_nonneg (by positivity) (by positivity))

/-- A dimension left unscaled (factor one) is returned unchanged. -/
theorem captureDim_one (k : ℕ) (hk : 1 ≤ k) : captureDim k 1 = k := by
  unfold captureDim jsRound
  have hfl : ⌊(k : ℚ) * 1 + 1/2⌋ = (k : ℤ) := by
    rw [mul_one, Int.floor_eq_iff]
    constructor
    · push_cast
      linarith
    · push_cast
      linarith
  rw [hfl, max_eq_right (by exact_mod_cast hk)]
  exact Int.toNat_natCast k

/-- Black pixels have zero luminance. -/
theorem luminance_black (i : ℕ) : luminance (blackPixels i) = 0 := by
  simp [luminance, blackPixels]

/-- C5 counterexample: a successful capture of a 1x129 surface keeps the
full 129-pixel height (only the width drives the downscale factor), so the
longer dimension of the returned signature exceeds the 128 cap. -/
theorem c5_tall_capture :
    captureCanvasSignature blackPixels 1 129 128 = some ⟨1, 129, List.replicate 129 0⟩ ∧
    128 < longerDimension ⟨1, 129, List.replicate 129 0⟩ := by
  have hs : captureScale 128 1 = 1 := by
    unfold captureScale
    rw [Nat.cast_one, div_one, min_eq_left]
    norm_num
  constructor
  · unfold captureCanvasSignature
    rw [if_neg (by norm_num), hs, captureDim_one 1 (by norm_num),
      captureDim_one 129 (by norm_num)]
    simp only [Option.some.injEq, FrameSignature.mk.injEq, one_mul]
    refine ⟨trivial, trivial, ?_⟩
    simp [luminance_black]
  · show 128 < max 1 129
    decide

/-- C5 (amended): for every signature returned by a successful capture the
width never exceeds the 128 target cap, and whenever the surface is at least
as wide as tall the longer dimension stays within 128; a taller-than-wide
surface keeps its height scaled only by the width-derived factor. -/
theorem c5_width_capped (pixel : ℕ → ℚ × ℚ × ℚ) (w h : ℕ) (sig : FrameSignature)
    (hcap : captureCanvasSignature pixel w h 128 = some sig) :
    sig.width ≤ 128 ∧ (h ≤ w → longerDimension sig ≤ 128) := by
  unfold captureCanvasSignature at hcap
  by_cases hz : w = 0 ∨ h = 0
  · rw [if_pos hz] at hcap
    exact absurd hcap (by simp)
  · rw [if_neg hz] at hcap
    push_neg at hz
    have hsig := Option.some_inj.mp hcap
    have hW : sig.width = captureDim w (captureScale 128 w) := by rw [← hsig]
    have hH : sig.height = captureDim h (captureScale 128 w) := by rw [← hsig]
    have hwle : captureDim w (captureScale 128 w) ≤ 128 :=
      captureDim_le _ _ _ (by norm_num) (width_scale_le w 128 hz.1)
    refine ⟨by rw [hW]; exact hwle, ?_⟩
    intro hhw
    have hhs : (h : ℚ) * captureScale 128 w ≤ (w : ℚ) * captureScale 128 w :=
      mul_le_mul_of_nonneg_right (by exact_mod_cast hhw) (captureScale_nonneg 128 w)
    have hhle : captureDim h (captureScale 128 w) ≤ 128 :=
      captureDim_le _ _ _ (by norm_num) (le_trans hhs (width_scale_le w 128 hz.1))
    unfold longerDimension
    rw [hW, hH]
    exact max_le hwle hhle

/-- C5 witness: a 10x5 capture succeeds unscaled, and both its width and its
longer dimension stay within 128. -/
theorem c5_width_capped_witness :
    captureCanvasSignature blackPixels 10 5 128 = some sigTenFive ∧
    sigTenFive.width ≤ 128 ∧ (5 ≤ 10 → longerDimension sigTenFive ≤ 128) := by
  have hs : captureScale 128 10 = 1 := by
    unfold captureScale
    rw [min_eq_left]
    rw [le_div_iff₀ (by norm_num)]
    norm_num
  have hcap : captureCanvasSignature blackPixels 10 5 128 = some sigTenFive := by
    unfold captureCanvasSignature sigTenFive
    rw [if_neg (by norm_num), hs, captureDim_one 10 (by norm_num),
      captureDim_one 5 (by norm_num)]
    simp only [Option.some.injEq, FrameSignature.mk.injEq]
    refine ⟨trivial, trivial, ?_⟩
    simp [luminance_black]
  have h := c5_width_capped blackPixels 10 5 sigTenFive hcap
  exact ⟨hcap, h.1, h.2⟩

/-- C6 counterexample: gMouse declares a movement control but its free-text
input "Mouse" yields no canonical key; the entry is ready and the second
snapshot exists, yet no response test is attempted and noResponse stays
false, refuting the claimed conservative default of true. -/
theorem c6_underivable_key :
    hasMovementControl gMouse = true ∧
    selectFirstMovementKey gMouse = none ∧
    (probedResult 10000 gMouse sMouseSignals).ready = true ∧
    (probedResult 10000 gMouse sMouseSignals).noResponse = false := by decide

/-- C6 (amended): whenever no canonical key is derivable, whether because no
movement control is declared or because the input description yields no
recognised token, no response test is attempted and noResponse stays false;
noResponse from a dispatch failure requires a derived key and an existing
second snapshot. -/
theorem c6_response_policy (game : ManifestGame) (ready : Bool)
    (sigB : Option FrameSignature) (outcome : ResponseOutcome) :
    (hasMovementControl game = false → selectFirstMovementKey game = none) ∧
    (selectFirstMovementKey game = none →
      computeNoResponse ready (selectFirstMovementKey game) sigB outcome = false) ∧
    (∀ b, sigB = some b → (selectFirstMovementKey game).isSome = true →
      computeNoResponse true (selectFirstMovementKey game) sigB
        ResponseOutcome.dispatchFailed = true) := by
  refine ⟨?_, ?_, ?_⟩
  · intro h
    cases hc : game.controls with
    | none => simp [selectFirstMovementKey, hc]
    | some cs =>
      cases hm : cs.movement with
      | none => simp [selectFirstMovementKey, hc, hm]
      | some l =>
        cases l with
        | nil => simp [selectFirstMovementKey, hc, hm]
        | cons f rest => simp [hasMovementControl, hc, hm] at h
  · intro h
    rw [h]
    unfold computeNoResponse
    cases ready
    · rfl
    · cases sigB <;> rfl
  · intro b hb hks
    obtain ⟨k, hk⟩ := Option.isSome_iff_exists.mp hks
    rw [hk, hb]
    rfl

/-- C6 witness: an entry without controls derives no key and keeps noResponse
false, while an entry with a derivable key and a captured second snapshot
gets noResponse true on dispatch failure. -/
theorem c6_response_policy_witness :
    selectFirstMovementKey gWorking = none ∧
    computeNoResponse true (selectFirstMovementKey gWorking) (some sigBright)
      (ResponseOutcome.captured none) = false ∧
    computeNoResponse true (selectFirstMovementKey gArrow) (some sigBright)
      ResponseOutcome.dispatchFailed = true := by
  have h1 := (c6_response_policy gWorking true (some sigBright)
    (ResponseOutcome.captured none)).1 (by decide)
  refine ⟨h1, (c6_response_policy gWorking true (some sigBright)
    (ResponseOutcome.captured none)).2.1 h1, ?_⟩
  exact (c6_response_policy gArrow true (some sigBright)
    (ResponseOutcome.captured none)).2.2 sigBright rfl (by decide)

/-- applyOne leaves every position holding an entry with a different id
unchanged. -/
theorem applyOne_keeps (id : String) :
    ∀ (games : List ManifestGame) (i : ℕ) (g : ManifestGame),
      games[i]? = some g → g.id ≠ id → (applyOne games id).1[i]? = some g := by
  intro games
  induction games with
  | nil =>
    intro i g h _
    simp at h
  | cons g0 rest ih =>
    intro i g h hne
    by_cases h0 : g0.id = id
    · cases i with
      | zero =>
        simp only [List.getElem?_cons_zero, Option.some.injEq] at h
        subst h
        exact absurd h0 hne
      | succ n =>
        simp only [List.getElem?_cons_succ] at h
        simp only [applyOne, if_pos h0, List.getElem?_cons_succ]
        exact h
    · cases i with
      | zero =>
        simp only [List.getElem?_cons_zero, Option.some.injEq] at h
        subst h
        simp only [applyOne, if_neg h0, List.getElem?_cons_zero]
      | succ n =>
        simp only [List.getElem?_cons_succ] at h
        simp only [applyOne, if_neg h0, List.getElem?_cons_succ]
        exact ih n g h hne

/-- The reconciliation fold leaves every entry unchanged whose id is named by
no broken-transition result. -/
theorem reconcile_keeps :
    ∀ (results : List HealthResult) (acc : List ManifestGame × Bool) (i : ℕ)
      (g : ManifestGame),
      acc.1[i]? = some g →
      (∀ r ∈ results, r.status = GameStatus.broken →
        r.previousStatus ≠ GameStatus.broken → r.id ≠ g.id) →
      (results.foldl reconcileStep acc).1[i]? = some g := by
  intro results
  induction results with
  | nil =>
    intro acc i g h _
    simpa using h
  | cons r rest ih =>
    intro acc i g h hq
    rw [List.foldl_cons]
    apply ih
    · unfold reconcileStep
      by_cases hr : r.status = GameStatus.broken ∧ r.previousStatus ≠ GameStatus.broken
      · rw [if_pos hr]
        exact applyOne_keeps r.id acc.1 i g h
          (fun he => (hq r (List.mem_cons_self r rest) hr.1 hr.2) he.symm)
      · rw [if_neg hr]
        exact h
    · intro r' hr' hs hp
      exact hq r' (List.mem_cons_of_mem r hr') hs hp

/-- C7: without the opt-in flag no manifest write occurs at all, and under
reconciliation every manifest entry not named by a result transitioning from
a non-broken previous status to broken is left unchanged; in particular a
consistent already-broken entry is never touched. -/
theorem c7_write_discipline (results : List HealthResult) (games : List ManifestGame) :
    manifestWrite false results games = none ∧
    (∀ (i : ℕ) (g : ManifestGame), games[i]? = some g →
      (∀ r ∈ results, r.status = GameStatus.broken →
        r.previousStatus ≠ GameStatus.broken → r.id ≠ g.id) →
      (applyReconciliation results games).1[i]? = some g) ∧
    (∀ (i : ℕ) (g : ManifestGame), games[i]? = some g → g.status = GameStatus.broken →
      (∀ r ∈ results, r.id = g.id → r.previousStatus = g.status) →
      (applyReconciliation results games).1[i]? = some g) := by
  refine ⟨rfl, ?_, ?_⟩
  · intro i g h hq
    exact reconcile_keeps results (games, false) i g h hq
  · intro i g h hb hcons
    apply reconcile_keeps results (games, false) i g h
    intro r hr _ hprev hid
    apply hprev
    rw [hcons r hr hid, hb]

/-- C7 witness: with the flag absent nothing is written, and an entry whose
id matches no broken transition survives reconciliation unchanged. -/
theorem c7_write_discipline_witness :
    manifestWrite false [resBrokenA] [gameB] = none ∧
    (applyReconciliation [resBrokenA] [gameB]).1[0]? = some gameB := by
  have h := c7_write_discipline [resBrokenA] [gameB]
  exact ⟨h.1, h.2.1 0 gameB (by decide) (by decide)⟩

/-- recordFrame updates the last-post clock exactly when it posts. -/
theorem recordFrame_lastPost (now ts : ℚ) (st : MetricsState) :
    (recordFrame now ts st).1.lastPost =
      if 100 ≤ ts - st.lastPost then ts else st.lastPost := by
  unfold recordFrame
  cases h : st.lastTimestamp <;> by_cases hc : 100 ≤ ts - st.lastPost <;> simp [h, hc]

/-- recordFrame posts exactly when 100ms of document clock elapsed since the
last post. -/
theorem recordFrame_post_isSome (now ts : ℚ) (st : MetricsState) :
    (recordFrame now ts st).2.isSome = decide (100 ≤ ts - st.lastPost) := by
  unfold recordFrame
  cases h : st.lastTimestamp <;> by_cases hc : 100 ≤ ts - st.lastPost <;> simp [h, hc]

/-- Every emission timestamp trails its predecessor (seeded by the state's
last-post clock) by at least 100ms. -/
theorem runFrames_chain_aux (frames : List (ℚ × ℚ)) :
    ∀ st : MetricsState,
      List.Chain' (fun a b => 100 ≤ b - a) (st.lastPost :: runFrames st frames) := by
  induction frames with
  | nil =>
    intro st
    simp [runFrames]
  | cons f rest ih =>
    intro st
    obtain ⟨now, ts⟩ := f
    have hlp := recordFrame_lastPost now ts st
    have hps := recordFrame_post_isSome now ts st
    rcases hrec : recordFrame now ts st with ⟨st2, post⟩
    rw [hrec] at hlp hps
    by_cases hc : 100 ≤ ts - st.lastPost
    · rcases post with _ | p
      · simp [hc] at hps
      · have hrun : runFrames st ((now, ts) :: rest) = ts :: runFrames st2 rest := by
          simp only [runFrames, hrec]
        rw [hrun]
        refine List.chain'_cons.mpr ⟨hc, ?_⟩
        have h2 := ih st2
        rw [hlp, if_pos hc] at h2
        exact h2
    · rcases post with _ | p
      · have hrun : runFrames st ((now, ts) :: rest) = runFrames st2 rest := by
          simp only [runFrames, hrec]
        rw [hrun]
        have h2 := ih st2
        rw [hlp, if_neg hc] at h2
        exact h2
      · simp [hc] at hps

/-- C8: for every starting metrics state and every sequence of animation
frame callbacks, any two consecutive metrics emissions of recordFrame are
separated by at least 100ms of the embedded document's clock, regardless of
how frequently the frames fire. -/
theorem c8_metrics_throttled (st : MetricsState) (frames : List (ℚ × ℚ)) :
    List.Chain' (fun a b => 100 ≤ b - a) (runFrames st frames) :=
  (runFrames_chain_aux frames st).tail

/-- C9: a focus, blur, pause or resume control message passing the source-tag
and origin checks re-dispatches the same event name on window and document
and then unconditionally posts a pause-state message; toggle-help only
re-dispatches and posts nothing at all. -/
theorem c9_control_echo (o : String) (storage : List StorageStep) (t : String)
    (h : t = "arcade:focus" ∨ t = "arcade:blur" ∨ t = "arcade:pause" ∨ t = "arcade:resume") :
    handleBridgeMessage (some BRIDGE_PARENT_SOURCE) o o (some t) storage =
      [BridgeAction.dispatchWindowEvent t, BridgeAction.dispatchDocumentEvent t,
       BridgeAction.postTelemetry "arcade:pause-state" (BridgePayload.pauseState t)] ∧
    handleBridgeMessage (some BRIDGE_PARENT_SOURCE) o o (some "arcade:toggle-help") storage =
      [BridgeAction.dispatchWindowEvent "arcade:toggle-help",
       BridgeAction.dispatchDocumentEvent "arcade:toggle-help"] ∧
    ∀ ty p, BridgeAction.postTelemetry ty p ∉
      handleBridgeMessage (some BRIDGE_PARENT_SOURCE) o o (some "arcade:toggle-help") storage := by
  have htoggle : handleBridgeMessage (some BRIDGE_PARENT_SOURCE) o o
      (some "arcade:toggle-help") storage =
      [BridgeAction.dispatchWindowEvent "arcade:toggle-help",
       BridgeAction.dispatchDocumentEvent "arcade:toggle-help"] := by
    simp [handleBridgeMessage, BRIDGE_PARENT_SOURCE]
  refine ⟨?_, htoggle, ?_⟩
  · rcases h with h | h | h | h <;> subst h <;> simp [handleBridgeMessage, BRIDGE_PARENT_SOURCE]
  · intro ty p hmem
    rw [htoggle] at hmem
    simp at hmem

/-- C9 witness at the pause control message. -/
theorem c9_control_echo_witness :
    handleBridgeMessage (some BRIDGE_PARENT_SOURCE) "https://host.test" "https://host.test"
        (some "arcade:pause") [] =
      [BridgeAction.dispatchWindowEvent "arcade:pause",
       BridgeAction.dispatchDocumentEvent "arcade:pause",
       BridgeAction.postTelemetry "arcade:pause-state"
         (BridgePayload.pauseState "arcade:pause")] :=
  (c9_control_echo "https://host.test" [] "arcade:pause"
    (Or.inr (Or.inr (Or.inl rfl)))).1

/-- collectEntries on a trace failing after a clean prefix returns exactly
the prefix's entries with the failure flag set. -/
theorem collectEntries_append_failure :
    ∀ (pre rest : List StorageStep), (∀ s ∈ pre, s ≠ StorageStep.failure) →
      collectEntries (pre ++ StorageStep.failure :: rest) = ((collectEntries pre).1, true) := by
  intro pre
  induction pre with
  | nil =>
    intro rest _
    simp [collectEntries]
  | cons s tail ih =>
    intro rest hnf
    cases s with
    | failure => exact absurd rfl (hnf StorageStep.failure (by simp))
    | item k v =>
      cases k with
      | none =>
        simp only [List.cons_append, collectEntries]
        exact ih rest (fun s hs => hnf s (by simp [hs]))
      | some key =>
        simp only [List.cons_append, collectEntries]
        rw [show collectEntries (tail.append (StorageStep.failure :: rest)) =
          ((collectEntries tail).1, true) from ih rest (fun s hs => hnf s (by simp [hs]))]

/-- C10: a request-highscores message passing the source-tag and origin
checks always yields exactly one arcade:highscores reply; when the storage
enumeration throws, an arcade:error post precedes the reply and the reply
carries exactly the entries collected before the failure. -/
theorem c10_highscores_reply (o : String) (storage : List StorageStep) :
    (handleBridgeMessage (some BRIDGE_PARENT_SOURCE) o o
        (some "arcade:request-highscores") storage =
      if (collectEntries storage).2 then
        [BridgeAction.postTelemetry "arcade:error" BridgePayload.enumError,
         BridgeAction.postTelemetry "arcade:highscores"
           (BridgePayload.highscoreList (collectEntries storage).1)]
      else
        [BridgeAction.postTelemetry "arcade:highscores"
           (BridgePayload.highscoreList (collectEntries storage).1)]) ∧
    (List.countP isHighscoresPost (handleBridgeMessage (some BRIDGE_PARENT_SOURCE) o o
        (some "arcade:request-highscores") storage) = 1) ∧
    (∀ pre rest, (∀ s ∈ pre, s ≠ StorageStep.failure) →
      storage = pre ++ StorageStep.failure :: rest →
      collectEntries storage = ((collectEntries pre).1, true)) := by
  have hmain : handleBridgeMessage (some BRIDGE_PARENT_SOURCE) o o
      (some "arcade:request-highscores") storage =
      if (collectEntries storage).2 then
        [BridgeAction.postTelemetry "arcade:error" BridgePayload.enumError,
         BridgeAction.postTelemetry "arcade:highscores"
           (BridgePayload.highscoreList (collectEntries storage).1)]
      else
        [BridgeAction.postTelemetry "arcade:highscores"
           (BridgePayload.highscoreList (collectEntries storage).1)] := by
    cases h2 : (collectEntries storage).2 <;>
      simp [handleBridgeMessage, BRIDGE_PARENT_SOURCE, h2]
  refine ⟨hmain, ?_, ?_⟩
  · rw [hmain]
    cases h2 : (collectEntries storage).2 <;> simp [isHighscoresPost]
  · intro pre rest hnf heq
    rw [heq]
    exact collectEntries_append_failure pre rest hnf

/-- C10 witness: a trace with one entry then a throw posts the error followed
by a single highscores reply carrying the collected entry. -/
theorem c10_highscores_reply_witness :
    collectEntries storageFail = ([("hs:a", some "10")], true) ∧
    handleBridgeMessage (some BRIDGE_PARENT_SOURCE) "https://host.test" "https://host.test"
        (some "arcade:request-highscores") storageFail =
      [BridgeAction.postTelemetry "arcade:error" BridgePayload.enumError,
       BridgeAction.postTelemetry "arcade:highscores"
         (BridgePayload.highscoreList [("hs:a", some "10")])] := by
  have h := c10_highscores_reply "https://host.test" storageFail
  have hce : collectEntries storageFail = ([("hs:a", some "10")], true) :=
    (h.2.2 [StorageStep.item (some "hs:a") (some "10")] [] (by decide) rfl).trans (by decide)
  refine ⟨hce, ?_⟩
  rw [h.1, hce]
  rfl

end Arcade
